import Mathlib

/-!
Verification development for the agentic-pipelines repository.

The Python sources are shallowly embedded as executable Lean definitions:

* `src/src/run_logging/local.py` — `extract_message_data`, `save_message_history`,
  `save_full_message_history`;
* `src/src/playground.py` — `generate_bioinformatics_pipeline` and the data model
  (`WorkflowDesign`, `SnakemakeCode`, `BioinformaticsContext`);
* `src/src/utils/create_user.py` — `create_new_user_and_rundir`.

Modelling conventions:

* Python values that can appear inside message fields are modelled by the
  JSON-like tree `JValue`; `str(...)` coercion is modelled by `pyStr`.
* A conversation turn (`Msg`) is modelled by its duck-typing observables: an
  optional `model_dump` capability (whose call may raise, modelled by `Except`),
  an optional attribute map (`__dict__`), an optional dict shape
  (`isinstance(msg, dict)`), the runtime type name, and the `str(msg)` rendering.
* Wall-clock readings (`datetime.now()`) are abstracted: serializer-internal
  readings collapse to one `now : String` parameter per call, and the
  per-run readings in `generate_bioinformatics_pipeline` are drawn from an
  abstract `clock : Nat → String` so that "the timestamp is computed once"
  is a provable statement rather than an assumption.
* File writes are modelled by the value written (the document), not by I/O;
  JSON text rendering (`renderJChars`) is modelled up to whitespace, with the
  `ensure_ascii` flag of `json.dump` made explicit.
-/

namespace AgenticPipelines

/-- JSON-like values, modelling the Python values stored in message fields. -/
inductive JValue where
  | str (s : String)
  | nat (n : Nat)
  | null
  | arr (elems : List JValue)
  | obj (fields : List (String × JValue))
deriving Repr

/-- Decimal digit character for `n % 10`. -/
def natDigit (n : Nat) : Char :=
  match n % 10 with
  | 0 => '0' | 1 => '1' | 2 => '2' | 3 => '3' | 4 => '4'
  | 5 => '5' | 6 => '6' | 7 => '7' | 8 => '8' | _ => '9'

/-- Fuel-driven decimal rendering of a natural number (most significant first). -/
def natCharsAux : Nat → Nat → List Char
  | 0, _ => []
  | fuel + 1, n => if n < 10 then [natDigit n] else natCharsAux fuel (n / 10) ++ [natDigit n]

/-- Decimal rendering of a natural number, as Python and JSON print it. -/
def natChars (n : Nat) : List Char := natCharsAux (n + 1) n

/-- The single-quote character used by Python `repr` of strings. -/
def sq : Char := Char.ofNat 39

/-- Left brace character (written by code point to keep it out of string literals). -/
def lbrace : Char := Char.ofNat 123

/-- Right brace character. -/
def rbrace : Char := Char.ofNat 125

/-- Join pieces with a separator, as Python `sep.join(pieces)` does. -/
def sepBy (sep : List Char) : List (List Char) → List Char
  | [] => []
  | [p] => p
  | p :: ps => p ++ sep ++ sepBy sep ps

mutual

/-- Executable size of a `JValue` tree, used as recursion fuel. -/
def JValue.size : JValue → Nat
  | .str _ => 1
  | .nat _ => 1
  | .null => 1
  | .arr l => 1 + JValue.sizeList l
  | .obj l => 1 + JValue.sizePairs l

/-- Total size of a list of `JValue` trees. -/
def JValue.sizeList : List JValue → Nat
  | [] => 0
  | v :: vs => JValue.size v + JValue.sizeList vs

/-- Total size of the values of a field list. -/
def JValue.sizePairs : List (String × JValue) → Nat
  | [] => 0
  | p :: ps => JValue.size p.2 + JValue.sizePairs ps

end

/-- Fuel-driven model of Python `repr` for `JValue` trees. The fuel passed by
`pyRepr` is `JValue.size v`, which strictly exceeds the recursion depth, so the
cut-off branch is never reached on actual values. -/
def pyReprF : Nat → JValue → List Char
  | 0, _ => []
  | fuel + 1, v =>
    match v with
    | .str s => sq :: s.data ++ [sq]
    | .nat n => natChars n
    | .null => "None".data
    | .arr l => '[' :: sepBy ", ".data (l.map (pyReprF fuel)) ++ [']']
    | .obj l =>
        lbrace :: sepBy ", ".data
          (l.map (fun p => sq :: p.1.data ++ [sq] ++ ": ".data ++ pyReprF fuel p.2)) ++ [rbrace]

/-- Python `repr` of a `JValue`. -/
def pyRepr (v : JValue) : String := ⟨pyReprF (JValue.size v) v⟩

/-- Python `str(...)` coercion of a field value: a string is returned as-is,
any other value renders as its `repr`. -/
def pyStr : JValue → String
  | .str s => s
  | v => pyRepr v

/-- A conversation-turn object as seen through the duck-typing probes of
`extract_message_data` (src/src/run_logging/local.py, lines 14-55):

* `model_dump`: present iff `hasattr(msg, 'model_dump')`; calling it yields a
  field map or raises (the `Except.error` case carries the exception text);
* `attrs`: present iff `hasattr(msg, '__dict__')`; the instance attribute map
  read by `getattr`;
* `isDict`: present iff `isinstance(msg, dict)`, carrying the dict entries;
* `typeName`: `type(msg).__name__`;
* `strRepr`: the `str(msg)` rendering of the whole object. -/
structure Msg where
  model_dump : Option (Except String (List (String × JValue)))
  attrs : Option (List (String × JValue))
  isDict : Option (List (String × JValue))
  typeName : String
  strRepr : String

/-- Python `s.lower()`, character-wise. -/
def pyLower (s : String) : String := ⟨s.data.map Char.toLower⟩

/-- `d.get(k)` for a Python dict modelled as an association list. -/
def dictGet (d : List (String × JValue)) (k : String) : Option JValue :=
  (d.find? (fun p => p.1 == k)).map (·.2)

/-- The record built by one branch of `extract_message_data`. `raw_data` is
populated only by the structured-dump branch; `type` only by the attribute and
fallback branches — mirroring the different dict literals in the source. -/
structure MsgData where
  id : Nat
  timestamp : JValue
  role : JValue
  content : String
  metadata : JValue
  raw_data : Option (List (String × JValue))
  type : Option String
deriving Repr

/-- `extract_message_data(msg, index)` (local.py lines 14-55): capability probe
in source order — `model_dump`, then `__dict__`, then `isinstance(msg, dict)`,
then the stringification fallback. `now` stands for the
`datetime.now().isoformat()` readings used as timestamp defaults. -/
def extract_message_data (msg : Msg) (index : Nat) (now : String) : Except String MsgData :=
  match msg.model_dump with
  | some (.error e) => .error e
  | some (.ok msg_data) =>
      .ok { id := index,
            timestamp := (dictGet msg_data "timestamp").getD (.str now),
            role := (dictGet msg_data "role").getD (.str "unknown"),
            content := pyStr ((dictGet msg_data "content").getD (.str "")),
            metadata := (dictGet msg_data "metadata").getD (.obj []),
            raw_data := some msg_data,
            type := none }
  | none =>
  match msg.attrs with
  | some a =>
      .ok { id := index,
            timestamp := (dictGet a "timestamp").getD (.str now),
            role := (dictGet a "role").getD (.str "unknown"),
            content := pyStr ((dictGet a "content").getD (.str msg.strRepr)),
            metadata := (dictGet a "metadata").getD (.obj []),
            raw_data := none,
            type := some msg.typeName }
  | none =>
  match msg.isDict with
  | some d =>
      .ok { id := index,
            timestamp := (dictGet d "timestamp").getD (.str now),
            role := (dictGet d "role").getD (.str "unknown"),
            content := pyStr ((dictGet d "content").getD (.str "")),
            metadata := (dictGet d "metadata").getD (.obj []),
            raw_data := none,
            type := none }
  | none =>
      .ok { id := index,
            timestamp := .str now,
            role := .str "unknown",
            content := msg.strRepr,
            metadata := .obj [],
            raw_data := none,
            type := some msg.typeName }

/-- The list comprehension
`[extract_message_data(msg, i) for i, msg in enumerate(message_history)]`,
starting at index `k`: extraction proceeds in input order and the first
raised exception propagates. -/
def extractFrom : List Msg → Nat → String → Except String (List MsgData)
  | [], _, _ => .ok []
  | m :: ms, k, now =>
    match extract_message_data m k now with
    | .error e => .error e
    | .ok d =>
      match extractFrom ms (k + 1) now with
      | .error e => .error e
      | .ok ds => .ok (d :: ds)

/-- The JSON document written by `save_message_history` for `format_type="json"`:
either the primary document (local.py lines 61-65) or the degraded fallback
(lines 72-77). -/
inductive Doc where
  | primary (timestamp : String) (total_messages : Nat) (messages : List MsgData)
  | degraded (timestamp : String) (total_messages : Nat) (error : String)
      (messages_str : List String)
deriving Repr

/-- The `total_messages` field of the written document (present in both forms). -/
def Doc.total_messages : Doc → Nat
  | .primary _ n _ => n
  | .degraded _ n _ _ => n

/-- The extracted message records of the written document; the degraded form
carries none. -/
def Doc.messages : Doc → List MsgData
  | .primary _ _ ms => ms
  | .degraded _ _ _ _ => []

/-- `save_message_history` (local.py lines 57-79), modelled by the document it
writes to `file_path`. Only the JSON branch produces a `Doc`; the markdown
branch (lines 81-92) renders the same extracted records as prose to a `.md`
path and is not referenced by any verified property, and any other
`format_type` writes nothing — both are modelled as `none`. `json.dump` is
called with `default=str`, which makes document serialization total, so the
`except` branch (lines 70-79) fires exactly when a turn fails extraction. -/
def save_message_history (message_history : List Msg) (format_type : String)
    (now : String) : Option Doc :=
  if pyLower format_type == "json" then
    some (match extractFrom message_history 0 now with
      | .ok messages_data => .primary now message_history.length messages_data
      | .error e =>
          .degraded now message_history.length
            ("Failed to serialize messages: " ++ e)
            (message_history.map Msg.strRepr))
  else none

/-- Hexadecimal digit character for `n % 16`, as used in JSON `\uXXXX` escapes. -/
def hexDigit (n : Nat) : Char :=
  match n % 16 with
  | 0 => '0' | 1 => '1' | 2 => '2' | 3 => '3' | 4 => '4'
  | 5 => '5' | 6 => '6' | 7 => '7' | 8 => '8' | 9 => '9'
  | 10 => 'a' | 11 => 'b' | 12 => 'c' | 13 => 'd' | 14 => 'e' | _ => 'f'

/-- Four hex digits of a code point, for the `\uXXXX` escape. -/
def hex4 (n : Nat) : List Char :=
  [hexDigit (n / 4096), hexDigit (n / 256), hexDigit (n / 16), hexDigit n]

/-- JSON escaping of one character as Python `json.dump` performs it: quote and
backslash are always escaped; a character outside ASCII is escaped to `\uXXXX`
exactly when `ensure_ascii` holds (surrogate-pair handling above the BMP is not
modelled — no verified property evaluates it there). -/
def escChar (ensure : Bool) (c : Char) : List Char :=
  if c = '"' then ['\\', '"']
  else if c = '\\' then ['\\', '\\']
  else if ensure = true ∧ 127 < c.toNat then '\\' :: 'u' :: hex4 c.toNat
  else [c]

/-- Rendering of a JSON string literal under the given `ensure_ascii` flag. -/
def renderStringChars (ensure : Bool) (s : String) : List Char :=
  '"' :: (s.data.map (escChar ensure)).flatten ++ ['"']

/-- Fuel-driven rendering of a `JValue` to JSON text under the given
`ensure_ascii` flag, modelled up to whitespace (the `indent=2` layout of the
source only adds ASCII whitespace). The fuel passed by `renderJChars` strictly
exceeds the tree depth, so the cut-off branch is never reached. -/
def renderJCharsF (ensure : Bool) : Nat → JValue → List Char
  | 0, _ => []
  | fuel + 1, v =>
    match v with
    | .str s => renderStringChars ensure s
    | .nat n => natChars n
    | .null => "null".data
    | .arr l => '[' :: sepBy ", ".data (l.map (renderJCharsF ensure fuel)) ++ [']']
    | .obj l =>
        lbrace :: sepBy ", ".data
          (l.map (fun p => renderStringChars ensure p.1 ++ ": ".data ++
            renderJCharsF ensure fuel p.2)) ++ [rbrace]

/-- JSON text of a `JValue` under the given `ensure_ascii` flag. -/
def renderJChars (ensure : Bool) (v : JValue) : List Char :=
  renderJCharsF ensure (JValue.size v) v

/-- `json.dump`'s treatment of one raw turn object with `default=str`: a dict
is serialized natively as a JSON object; every other object is coerced to its
string form by the `default` hook. -/
def jsonOfMsg (m : Msg) : JValue :=
  match m.isDict with
  | some fs => .obj fs
  | none => .str m.strRepr

/-- The JSON object for one extracted record, with keys in the order of the
dict literals in `extract_message_data` (the optional trailing key is
`raw_data` for the structured branch and `type` for the attribute and
fallback branches). -/
def jsonOfMsgData (d : MsgData) : JValue :=
  .obj ([("id", .nat d.id), ("timestamp", d.timestamp), ("role", d.role),
         ("content", .str d.content), ("metadata", d.metadata)]
    ++ (match d.raw_data with | some fs => [("raw_data", JValue.obj fs)] | none => [])
    ++ (match d.type with | some t => [("type", JValue.str t)] | none => []))

/-- The JSON object for a written document (primary form: local.py lines 61-65;
degraded form: lines 72-77). -/
def jsonOfDoc : Doc → JValue
  | .primary ts n ms =>
      .obj [("timestamp", .str ts), ("total_messages", .nat n),
            ("messages", .arr (ms.map jsonOfMsgData))]
  | .degraded ts n e strs =>
      .obj [("timestamp", .str ts), ("total_messages", .nat n),
            ("error", .str e), ("messages_str", .arr (strs.map JValue.str))]

/-- The JSON text `save_message_history` writes: both of its `json.dump` calls
pass `ensure_ascii=False` (local.py lines 68 and 79). -/
def renderDoc (d : Doc) : String := ⟨renderJChars false (jsonOfDoc d)⟩

/-- The document written by `save_full_message_history` (local.py lines 95-111):
the two raw turn sequences keyed by stage name. -/
structure FullDoc where
  workflow_messages : List Msg
  snakemake_messages : List Msg

/-- Stage-1 structured output (playground.py lines 91-94). -/
structure WorkflowDesign where
  analysis_steps : List String
  tools_required : List String
  data_flow : String

/-- Stage-2 structured output (playground.py lines 96-100). -/
structure SnakemakeCode where
  snakefile : String
  config_yaml : String
  environment_yaml : String
  documentation : String

/-- The run context dataclass (playground.py lines 85-89). -/
structure BioinformaticsContext where
  project_type : String
  data_types : List String
  analysis_goals : List String

/-- `save_full_message_history(workflow_history, snakemake_history, design,
user_request, context, file_path)`: builds the two-key dict from the raw
histories and dumps it in a single `json.dump(..., indent=2, default=str)`
call; `design`, `user_request` and `context` are accepted but unused, there is
no try/except around the dump (an exception there would propagate to the
caller), and `ensure_ascii` is left at its default `True`. -/
def save_full_message_history (workflow_history : List Msg)
    (snakemake_history : List Msg) (design : WorkflowDesign)
    (user_request : String) (context : BioinformaticsContext) : FullDoc :=
  { workflow_messages := workflow_history, snakemake_messages := snakemake_history }

/-- The JSON object of the combined document. -/
def jsonOfFullDoc (fd : FullDoc) : JValue :=
  .obj [("workflow_messages", .arr (fd.workflow_messages.map jsonOfMsg)),
        ("snakemake_messages", .arr (fd.snakemake_messages.map jsonOfMsg))]

/-- The JSON text `save_full_message_history` writes: its `json.dump` call does
not pass `ensure_ascii`, so the default `ensure_ascii=True` applies. -/
def renderFullDoc (fd : FullDoc) : String := ⟨renderJChars true (jsonOfFullDoc fd)⟩

/-- Python `str(...)` of a list of strings (`f"...{design.analysis_steps}..."`):
the elements are rendered with `repr`, i.e. wrapped in single quotes. -/
def pyListRepr (l : List String) : String :=
  ⟨'[' :: sepBy ", ".data (l.map (fun s => sq :: s.data ++ [sq])) ++ [']']⟩

/-- The stage-2 prompt f-string (playground.py lines 203-209), embedding stage
1's `analysis_steps`, `tools_required` and `data_flow` and the original
`user_request`. -/
def mkCodePrompt (design : WorkflowDesign) (user_request : String) : String :=
  "Generate Snakemake pipeline implementing this design:\n    \n    Steps: "
    ++ pyListRepr design.analysis_steps
    ++ "\n    Tools: " ++ pyListRepr design.tools_required
    ++ "\n    Data flow: " ++ design.data_flow
    ++ "\n    \n    Original request: " ++ user_request

/-- What one file write carries: a per-stage transcript document (the value
`save_message_history` produces for the given format) or the combined
document. -/
inductive FileContent where
  | transcript (d : Option Doc)
  | combined (d : FullDoc)

/-- One file write: destination path and written content. -/
structure FileWrite where
  path : String
  content : FileContent

/-- `generate_bioinformatics_pipeline(user_request, context, output_dir)`
(playground.py lines 184-220), modelled as a pure function of the two agent
oracles. `workflow_agent` stands for `workflow_agent.run(user_request,
deps=context)` and yields the validated `WorkflowDesign` together with
`all_messages()`, or the exception text when the call raises (validation
exhaustion or transport failure); `code_agent` likewise for
`code_agent.run(code_prompt, deps=context)`. `clock` abstracts successive
`datetime.now()` readings: index 0 is the `strftime`-formatted reading of
line 196 used in all three file names, indices 1 and 2 the readings inside
the two `save_message_history` calls. The result is the ordered list of file
writes performed together with the returned pair or the propagated
exception. -/
def generate_bioinformatics_pipeline
    (workflow_agent : String → BioinformaticsContext →
      Except String (WorkflowDesign × List Msg))
    (code_agent : String → BioinformaticsContext →
      Except String (SnakemakeCode × List Msg))
    (user_request : String) (context : BioinformaticsContext)
    (output_dir : String) (clock : Nat → String) :
    List FileWrite × Except String (WorkflowDesign × SnakemakeCode) :=
  match workflow_agent user_request context with
  | .error e => ([], .error e)
  | .ok (design, workflow_history) =>
    let timestamp := clock 0
    let history_file := output_dir ++ "/workflow_design_history_" ++ timestamp ++ ".json"
    let w1 : FileWrite :=
      ⟨history_file, .transcript (save_message_history workflow_history "json" (clock 1))⟩
    match code_agent (mkCodePrompt design user_request) context with
    | .error e => ([w1], .error e)
    | .ok (code, snakemake_history) =>
      let w2 : FileWrite :=
        ⟨output_dir ++ "/snakemake_generation_history_" ++ timestamp ++ ".json",
         .transcript (save_message_history snakemake_history "json" (clock 2))⟩
      let w3 : FileWrite :=
        ⟨output_dir ++ "/full_pipeline_history_" ++ timestamp ++ ".json",
         .combined (save_full_message_history workflow_history snakemake_history
            design user_request context)⟩
      ([w1, w2, w3], .ok (design, code))

/-- Python `s.replace(a, b)` for single-character arguments, on the character
list of the string. -/
def pyReplaceChar (a b : Char) (l : List Char) : List Char :=
  l.map (fun c => if c = a then b else c)

/-- Python `s.split(sep)` for a single-character separator: empty pieces are
kept, and the empty string splits to one empty piece. -/
def pySplitChar (sep : Char) : List Char → List (List Char)
  | [] => [[]]
  | c :: cs =>
    if c = sep then [] :: pySplitChar sep cs
    else
      match pySplitChar sep cs with
      | [] => [[c]]
      | p :: ps => (c :: p) :: ps

/-- `create_new_user_and_rundir` (src/src/utils/create_user.py, lines 5-11),
modelled by its identifier computation:
`"_".join(phrase.replace("-", "_").replace(" ", "_").split("_")[:-1])[:32]`.
`phrase` stands for the externally generated `HRID().generate()` value; the
`run_dir.mkdir(parents=True, exist_ok=True)` side effect is I/O and carries no
data, so it is not modelled. -/
def create_new_user_and_rundir (phrase : String) : String :=
  ⟨(sepBy ['_']
      ((pySplitChar '_'
        (pyReplaceChar ' ' '_' (pyReplaceChar '-' '_' phrase.data))).dropLast)).take 32⟩

/-- Modelled from the spec's words (§4.1), for comparison with
`create_new_user_and_rundir`: the same normalization pipeline but with the
lowercasing step the spec describes ("replace separators with a single
canonical separator, lowercase, strip trailing segment, truncate to 32"). -/
def create_run_id_spec_version (phrase : String) : String :=
  ⟨(sepBy ['_']
      ((pySplitChar '_'
        (pyReplaceChar ' ' '_'
          (pyReplaceChar '-' '_' (phrase.data.map Char.toLower)))).dropLast)).take 32⟩

/-! ## Helper lemmas -/

theorem extract_message_data_id (msg : Msg) (index : Nat) (now : String)
    (d : MsgData) (h : extract_message_data msg index now = .ok d) : d.id = index := by
  unfold extract_message_data at h
  repeat' split at h
  all_goals
    first
    | exact Except.noConfusion h
    | (injection h with h2; exact (congrArg MsgData.id h2).symm)

theorem extractFrom_ok (history : List Msg) :
    ∀ (k : Nat) (now : String) (ds : List MsgData),
      extractFrom history k now = .ok ds →
      ds.length = history.length ∧
      ∀ i (hi : i < ds.length) (hh : i < history.length),
        extract_message_data (history.get ⟨i, hh⟩) (k + i) now = .ok (ds.get ⟨i, hi⟩) := by
  induction history with
  | nil =>
    intro k now ds h
    simp only [extractFrom] at h
    injection h with h
    subst h
    exact ⟨rfl, fun i hi => by simp at hi⟩
  | cons m ms ih =>
    intro k now ds h
    simp only [extractFrom] at h
    split at h
    · exact absurd h (by simp)
    · rename_i d hd
      split at h
      · exact absurd h (by simp)
      · rename_i ds' hds
        injection h with h
        subst h
        obtain ⟨hlen, hpt⟩ := ih (k + 1) now ds' hds
        refine ⟨by simp [hlen], ?_⟩
        intro i hi hh
        match i with
        | 0 => simpa using hd
        | j + 1 =>
          have hj : j < ds'.length := by simpa using hi
          have hj' : j < ms.length := by simpa using hh
          have := hpt j hj hj'
          simpa [Nat.add_assoc, Nat.add_comm 1 j] using this

/-! ## Claims about the transcript serializer -/

/-- Counterexample to claim C1: the claim asserts that for every non-empty
input the written document carries an extracted record with `id = i` for
every index `i` from 0 to N-1, but on a one-element history whose turn fails
extraction (its `model_dump` call raises) the written document is the
degraded form: its `total_messages` is still 1, yet it carries no extracted
message records at all (zero records, not one), so no record with `id = 0`
exists. -/
theorem save_message_history_ids_counterexample :
    ∃ d, save_message_history [(⟨some (.error "boom2"), none, none, "M2", "sM2"⟩ : Msg)]
        "json" "T2" = some d ∧
      d.total_messages = 1 ∧
      d.messages.length = 0 ∧
      d.messages.length ≠ [(⟨some (.error "boom2"), none, none, "M2", "sM2"⟩ : Msg)].length :=
  ⟨.degraded "T2" 1 ("Failed to serialize messages: " ++ "boom2") ["sM2"],
   rfl, rfl, rfl, by decide⟩

/-- Claim C1 (amended): for every non-empty turn sequence, `save_message_history`
with format `"json"` writes a document whose `total_messages` field equals the
length N of the input; when every turn extracts successfully the document
carries exactly N extracted records, and in all cases the i-th record present
has `id = i` and is the extraction of the i-th input turn (records in input
order) — on an extraction failure the degraded document carries no extracted
records. -/
theorem save_message_history_ids (history : List Msg) (now : String)
    (hne : history ≠ []) :
    ∃ d, save_message_history history "json" now = some d ∧
      d.total_messages = history.length ∧
      (∀ ms, extractFrom history 0 now = .ok ms →
        d.messages = ms ∧ d.messages.length = history.length) ∧
      ∀ i (hi : i < d.messages.length) (hh : i < history.length),
        (d.messages.get ⟨i, hi⟩).id = i ∧
        extract_message_data (history.get ⟨i, hh⟩) i now = .ok (d.messages.get ⟨i, hi⟩) := by
  unfold save_message_history
  rw [if_pos (by decide)]
  cases hE : extractFrom history 0 now with
  | ok ms =>
    obtain ⟨hlen, hpt⟩ := extractFrom_ok history 0 now ms hE
    refine ⟨.primary now history.length ms, rfl, rfl, ?_, ?_⟩
    · intro ms2 hms2
      injection hms2 with hms2
      subst hms2
      exact ⟨rfl, hlen⟩
    · intro i hi hh
      have h := hpt i hi hh
      rw [Nat.zero_add] at h
      exact ⟨extract_message_data_id _ _ _ _ h, h⟩
  | error e =>
    refine ⟨_, rfl, rfl, ?_, ?_⟩
    · intro ms2 hms2
      exact Except.noConfusion hms2
    · intro i hi
      simp [Doc.messages] at hi

/-- Witness for the amended C1 at a concrete one-element history. -/
theorem save_message_history_ids_witness :
    ([(⟨none, none, some [("role", JValue.str "user")], "dict", "d0"⟩ : Msg)] ≠ []) ∧
    ∃ d, save_message_history
        [(⟨none, none, some [("role", JValue.str "user")], "dict", "d0"⟩ : Msg)]
        "json" "T0" = some d ∧
      d.total_messages = 1 ∧
      (∀ ms, extractFrom
          [(⟨none, none, some [("role", JValue.str "user")], "dict", "d0"⟩ : Msg)] 0 "T0" =
          .ok ms →
        d.messages = ms ∧ d.messages.length = 1) ∧
      ∀ i (hi : i < d.messages.length) (hh : i < 1),
        (d.messages.get ⟨i, hi⟩).id = i ∧
        extract_message_data
          ([(⟨none, none, some [("role", JValue.str "user")], "dict", "d0"⟩ : Msg)].get ⟨i, hh⟩)
          i "T0" = .ok (d.messages.get ⟨i, hi⟩) :=
  ⟨by simp, save_message_history_ids
    [(⟨none, none, some [("role", JValue.str "user")], "dict", "d0"⟩ : Msg)] "T0" (by simp)⟩

/-- Claim C3: if any turn fails extraction, `save_message_history` writes the
degraded document instead — generated-at timestamp, `total_messages = N`, the
error description built from the first raised exception, and the list of
stringified turns — and the serializer itself never fails to produce a
document for format `"json"` (in this model `str(...)` is total and
`json.dump` runs with `default=str`; only the file write itself, which is
I/O and outside the pure model, can fail). -/
theorem save_message_history_degraded (history : List Msg) (now e : String)
    (hfail : extractFrom history 0 now = .error e) :
    save_message_history history "json" now =
      some (.degraded now history.length ("Failed to serialize messages: " ++ e)
        (history.map Msg.strRepr)) ∧
    ∀ (h2 : List Msg) (n2 : String), (save_message_history h2 "json" n2).isSome = true := by
  constructor
  · unfold save_message_history
    rw [if_pos (by decide)]
    rw [hfail]
  · intro h2 n2
    unfold save_message_history
    rw [if_pos (by decide)]
    rfl

/-- Witness for C3 at a history whose turn's `model_dump` call raises. -/
theorem save_message_history_degraded_witness :
    extractFrom [(⟨some (.error "boom"), none, none, "M", "sM"⟩ : Msg)] 0 "T1" =
      .error "boom" ∧
    (save_message_history [(⟨some (.error "boom"), none, none, "M", "sM"⟩ : Msg)]
        "json" "T1" =
      some (.degraded "T1" 1 ("Failed to serialize messages: " ++ "boom") ["sM"]) ∧
    ∀ (h2 : List Msg) (n2 : String), (save_message_history h2 "json" n2).isSome = true) := by
  refine ⟨rfl, ?_⟩
  have h := save_message_history_degraded
    [(⟨some (.error "boom"), none, none, "M", "sM"⟩ : Msg)] "T1" "boom" rfl
  simpa using h

/-- Claim C2: `extract_message_data` classifies each turn by exactly the
priority order of the source — a present `model_dump` capability wins
unconditionally (no hypothesis on the other probes is needed); otherwise a
present attribute map; otherwise the dict shape; otherwise the
stringification fallback — and in each shape the extraction succeeds via its
documented path. -/
theorem extract_message_data_branch_priority :
    (∀ (m : Msg) (i : Nat) (now : String) fs, m.model_dump = some (.ok fs) →
      extract_message_data m i now =
        .ok ⟨i, (dictGet fs "timestamp").getD (.str now),
             (dictGet fs "role").getD (.str "unknown"),
             pyStr ((dictGet fs "content").getD (.str "")),
             (dictGet fs "metadata").getD (.obj []), some fs, none⟩) ∧
    (∀ (m : Msg) (i : Nat) (now : String) a, m.model_dump = none → m.attrs = some a →
      extract_message_data m i now =
        .ok ⟨i, (dictGet a "timestamp").getD (.str now),
             (dictGet a "role").getD (.str "unknown"),
             pyStr ((dictGet a "content").getD (.str m.strRepr)),
             (dictGet a "metadata").getD (.obj []), none, some m.typeName⟩) ∧
    (∀ (m : Msg) (i : Nat) (now : String) d, m.model_dump = none → m.attrs = none →
      m.isDict = some d →
      extract_message_data m i now =
        .ok ⟨i, (dictGet d "timestamp").getD (.str now),
             (dictGet d "role").getD (.str "unknown"),
             pyStr ((dictGet d "content").getD (.str "")),
             (dictGet d "metadata").getD (.obj []), none, none⟩) ∧
    (∀ (m : Msg) (i : Nat) (now : String), m.model_dump = none → m.attrs = none →
      m.isDict = none →
      extract_message_data m i now =
        .ok ⟨i, .str now, .str "unknown", m.strRepr, .obj [], none, some m.typeName⟩) := by
  refine ⟨?_, ?_, ?_, ?_⟩
  · intro m i now fs h
    unfold extract_message_data
    rw [h]
  · intro m i now a h1 h2
    unfold extract_message_data
    rw [h1, h2]
  · intro m i now d h1 h2 h3
    unfold extract_message_data
    rw [h1, h2, h3]
  · intro m i now h1 h2 h3
    unfold extract_message_data
    rw [h1, h2, h3]

/-- Witness for C2: a four-turn sequence with one turn of each shape (the
structured turn also carries an attribute map, exercising the priority), each
extracted via its documented path, none raising. -/
theorem extract_message_data_branch_priority_witness :
    ((⟨some (.ok [("role", JValue.str "assistant")]), some [], none, "ModelResponse", "rA"⟩ : Msg).model_dump
        = some (.ok [("role", JValue.str "assistant")]) ∧
      extract_message_data
        ⟨some (.ok [("role", JValue.str "assistant")]), some [], none, "ModelResponse", "rA"⟩ 0 "T" =
        .ok ⟨0, (dictGet [("role", JValue.str "assistant")] "timestamp").getD (.str "T"),
             (dictGet [("role", JValue.str "assistant")] "role").getD (.str "unknown"),
             pyStr ((dictGet [("role", JValue.str "assistant")] "content").getD (.str "")),
             (dictGet [("role", JValue.str "assistant")] "metadata").getD (.obj []),
             some [("role", JValue.str "assistant")], none⟩) ∧
    (extract_message_data
        ⟨none, some [("content", JValue.str "hi")], none, "Obj", "oB"⟩ 1 "T" =
        .ok ⟨1, (dictGet [("content", JValue.str "hi")] "timestamp").getD (.str "T"),
             (dictGet [("content", JValue.str "hi")] "role").getD (.str "unknown"),
             pyStr ((dictGet [("content", JValue.str "hi")] "content").getD (.str "oB")),
             (dictGet [("content", JValue.str "hi")] "metadata").getD (.obj []),
             none, some "Obj"⟩) ∧
    (extract_message_data
        ⟨none, none, some [("role", JValue.str "tool")], "dict", "dC"⟩ 2 "T" =
        .ok ⟨2, (dictGet [("role", JValue.str "tool")] "timestamp").getD (.str "T"),
             (dictGet [("role", JValue.str "tool")] "role").getD (.str "unknown"),
             pyStr ((dictGet [("role", JValue.str "tool")] "content").getD (.str "")),
             (dictGet [("role", JValue.str "tool")] "metadata").getD (.obj []),
             none, none⟩) ∧
    (extract_message_data ⟨none, none, none, "int", "42"⟩ 3 "T" =
        .ok ⟨3, .str "T", .str "unknown", "42", .obj [], none, some "int"⟩) :=
  ⟨⟨rfl, extract_message_data_branch_priority.1 _ 0 "T" _ rfl⟩,
   extract_message_data_branch_priority.2.1 _ 1 "T" _ rfl rfl,
   extract_message_data_branch_priority.2.2.1 _ 2 "T" _ rfl rfl rfl,
   extract_message_data_branch_priority.2.2.2 _ 3 "T" rfl rfl rfl⟩

/-- Counterexample to claim C7: the claim states that `content` falls back to
the empty string in every extraction branch, but in the attribute branch an
absent `content` attribute falls back to `str(msg)`: for an attribute-bearing
turn with empty attribute map and string form `"FooObj"`, the extracted
`content` is `"FooObj"`, not `""`. -/
theorem extract_content_fallback_counterexample :
    extract_message_data ⟨none, some [], none, "Foo", "FooObj"⟩ 0 "T" =
      .ok ⟨0, .str "T", .str "unknown", "FooObj", .obj [], none, some "Foo"⟩ ∧
    ("FooObj" : String) ≠ "" := ⟨rfl, by decide⟩

/-- Claim C7 (amended): in every extraction branch the defaults for absent
fields are — `id` the 0-based index, `timestamp` the capture time, `role` the
string `"unknown"`, `metadata` the empty mapping; `content` falls back to the
empty string in the structured-dump and mapping branches, and to the
stringified turn in the attribute and fallback branches. -/
theorem extract_message_data_fallbacks :
    (∀ (m : Msg) (i : Nat) (now : String) fs, m.model_dump = some (.ok fs) →
      dictGet fs "timestamp" = none → dictGet fs "role" = none →
      dictGet fs "content" = none → dictGet fs "metadata" = none →
      extract_message_data m i now =
        .ok ⟨i, .str now, .str "unknown", "", .obj [], some fs, none⟩) ∧
    (∀ (m : Msg) (i : Nat) (now : String) a, m.model_dump = none → m.attrs = some a →
      dictGet a "timestamp" = none → dictGet a "role" = none →
      dictGet a "content" = none → dictGet a "metadata" = none →
      extract_message_data m i now =
        .ok ⟨i, .str now, .str "unknown", m.strRepr, .obj [], none, some m.typeName⟩) ∧
    (∀ (m : Msg) (i : Nat) (now : String) d, m.model_dump = none → m.attrs = none →
      m.isDict = some d →
      dictGet d "timestamp" = none → dictGet d "role" = none →
      dictGet d "content" = none → dictGet d "metadata" = none →
      extract_message_data m i now =
        .ok ⟨i, .str now, .str "unknown", "", .obj [], none, none⟩) ∧
    (∀ (m : Msg) (i : Nat) (now : String), m.model_dump = none → m.attrs = none →
      m.isDict = none →
      extract_message_data m i now =
        .ok ⟨i, .str now, .str "unknown", m.strRepr, .obj [], none, some m.typeName⟩) := by
  refine ⟨?_, ?_, ?_, ?_⟩
  · intro m i now fs h ht hr hc hm
    simp only [extract_message_data, h, ht, hr, hc, hm, Option.getD, pyStr]
  · intro m i now a h1 h2 ht hr hc hm
    simp only [extract_message_data, h1, h2, ht, hr, hc, hm, Option.getD, pyStr]
  · intro m i now d h1 h2 h3 ht hr hc hm
    simp only [extract_message_data, h1, h2, h3, ht, hr, hc, hm, Option.getD, pyStr]
  · intro m i now h1 h2 h3
    simp only [extract_message_data, h1, h2, h3]

/-- Witness for the amended C7, discharging each branch's hypotheses at a
concrete turn with all optional fields absent. -/
theorem extract_message_data_fallbacks_witness :
    ((⟨some (.ok []), none, none, "P", "sP"⟩ : Msg).model_dump = some (.ok []) ∧
      extract_message_data ⟨some (.ok []), none, none, "P", "sP"⟩ 0 "N" =
        .ok ⟨0, .str "N", .str "unknown", "", .obj [], some [], none⟩) ∧
    (extract_message_data ⟨none, some [], none, "Q", "sQ"⟩ 1 "N" =
        .ok ⟨1, .str "N", .str "unknown", "sQ", .obj [], none, some "Q"⟩) ∧
    (extract_message_data ⟨none, none, some [], "dict", "sR"⟩ 2 "N" =
        .ok ⟨2, .str "N", .str "unknown", "", .obj [], none, none⟩) ∧
    (extract_message_data ⟨none, none, none, "S", "sS"⟩ 3 "N" =
        .ok ⟨3, .str "N", .str "unknown", "sS", .obj [], none, some "S"⟩) :=
  ⟨⟨rfl, extract_message_data_fallbacks.1 _ 0 "N" [] rfl rfl rfl rfl rfl⟩,
   extract_message_data_fallbacks.2.1 _ 1 "N" [] rfl rfl rfl rfl rfl rfl,
   extract_message_data_fallbacks.2.2.1 _ 2 "N" [] rfl rfl rfl rfl rfl rfl rfl,
   extract_message_data_fallbacks.2.2.2 _ 3 "N" rfl rfl rfl⟩

/-! ## Claims about the two-stage generator -/

/-- Counterexample to claim C4: the claim states that the stage-1 transcript is
persisted even when stage 1 fails with validation exhaustion, but
`workflow_agent.run` is not wrapped in any try/except (playground.py line 192),
so the exception propagates before `save_message_history` is reached: with a
stage-1 oracle that raises, the run performs zero file writes. -/
theorem generate_stage1_failure_counterexample :
    generate_bioinformatics_pipeline
      (fun _ _ => .error "validation exhausted")
      (fun _ _ => .ok (⟨"sf", "cy", "ey", "doc"⟩, []))
      "req" ⟨"p", [], []⟩ "out" (fun _ => "TS") =
      ([], .error "validation exhausted") := rfl

/-- Claim C4 (amended): the stage-1 transcript is persisted immediately after a
successful stage-1 call — it is the first file write, performed regardless of
the stage-2 outcome — while on a stage-1 failure (validation exhaustion or
transport error) the exception propagates and no transcript is written. -/
theorem generate_stage1_transcript_persistence :
    (∀ workflow_agent code_agent (u : String) ctx (o : String) clock design wh,
      workflow_agent u ctx = .ok (design, wh) →
      ∃ rest, (generate_bioinformatics_pipeline workflow_agent code_agent u ctx o clock).1 =
        (⟨o ++ "/workflow_design_history_" ++ clock 0 ++ ".json",
          .transcript (save_message_history wh "json" (clock 1))⟩ : FileWrite) :: rest) ∧
    (∀ workflow_agent code_agent (u : String) ctx (o : String) clock e,
      workflow_agent u ctx = .error e →
      generate_bioinformatics_pipeline workflow_agent code_agent u ctx o clock =
        ([], .error e)) := by
  constructor
  · intro wa ca u ctx o clock design wh h1
    simp only [generate_bioinformatics_pipeline, h1]
    cases h2 : ca (mkCodePrompt design u) ctx with
    | error e => exact ⟨[], by simp only [h2]⟩
    | ok r =>
      exact ⟨[⟨o ++ "/snakemake_generation_history_" ++ clock 0 ++ ".json",
               .transcript (save_message_history r.2 "json" (clock 2))⟩,
              ⟨o ++ "/full_pipeline_history_" ++ clock 0 ++ ".json",
               .combined (save_full_message_history wh r.2 design u ctx)⟩],
             by simp only [h2]⟩
  · intro wa ca u ctx o clock e h1
    simp only [generate_bioinformatics_pipeline, h1]

/-- Witness for the amended C4 at concrete oracles, in both stage-1 outcomes. -/
theorem generate_stage1_transcript_persistence_witness :
    ((fun (_ : String) (_ : BioinformaticsContext) =>
        (.ok (⟨["s"], ["t"], "f"⟩, ([] : List Msg)) :
          Except String (WorkflowDesign × List Msg))) "u" ⟨"p", [], []⟩ =
      .ok (⟨["s"], ["t"], "f"⟩, ([] : List Msg)) ∧
    (∃ rest, (generate_bioinformatics_pipeline
        (fun _ _ => .ok (⟨["s"], ["t"], "f"⟩, []))
        (fun _ _ => .error "late") "u" ⟨"p", [], []⟩ "out" (fun _ => "TS")).1 =
        (⟨"out" ++ "/workflow_design_history_" ++ "TS" ++ ".json",
          .transcript (save_message_history [] "json" "TS")⟩ : FileWrite) :: rest)) ∧
    ((fun (_ : String) (_ : BioinformaticsContext) =>
        (.error "validation exhausted" :
          Except String (WorkflowDesign × List Msg))) "u" ⟨"p", [], []⟩ =
      .error "validation exhausted" ∧
    generate_bioinformatics_pipeline
        (fun _ _ => .error "validation exhausted")
        (fun _ _ => .error "late") "u" ⟨"p", [], []⟩ "out" (fun _ => "TS") =
      ([], .error "validation exhausted")) :=
  ⟨⟨rfl, generate_stage1_transcript_persistence.1
      (fun _ _ => .ok (⟨["s"], ["t"], "f"⟩, []))
      (fun _ _ => .error "late") "u" ⟨"p", [], []⟩ "out" (fun _ => "TS")
      ⟨["s"], ["t"], "f"⟩ [] rfl⟩,
   rfl, generate_stage1_transcript_persistence.2
      (fun _ _ => .error "validation exhausted")
      (fun _ _ => .error "late") "u" ⟨"p", [], []⟩ "out" (fun _ => "TS")
      "validation exhausted" rfl⟩

/-- Claim C5: every successful run performs exactly three file writes —
`workflow_design_history_<ts>.json`, `snakemake_generation_history_<ts>.json`
and `full_pipeline_history_<ts>.json` — where the timestamp token `<ts>` is
the single clock reading `clock 0` taken once per invocation, identical in
all three names even though the clock may advance between the writes. -/
theorem generate_three_transcript_files
    (workflow_agent : String → BioinformaticsContext →
      Except String (WorkflowDesign × List Msg))
    (code_agent : String → BioinformaticsContext →
      Except String (SnakemakeCode × List Msg))
    (u : String) (ctx : BioinformaticsContext) (o : String) (clock : Nat → String)
    (design : WorkflowDesign) (wh : List Msg) (code : SnakemakeCode) (sh : List Msg)
    (h1 : workflow_agent u ctx = .ok (design, wh))
    (h2 : code_agent (mkCodePrompt design u) ctx = .ok (code, sh)) :
    generate_bioinformatics_pipeline workflow_agent code_agent u ctx o clock =
      ([⟨o ++ "/workflow_design_history_" ++ clock 0 ++ ".json",
         .transcript (save_message_history wh "json" (clock 1))⟩,
        ⟨o ++ "/snakemake_generation_history_" ++ clock 0 ++ ".json",
         .transcript (save_message_history sh "json" (clock 2))⟩,
        ⟨o ++ "/full_pipeline_history_" ++ clock 0 ++ ".json",
         .combined (save_full_message_history wh sh design u ctx)⟩],
       .ok (design, code)) := by
  simp only [generate_bioinformatics_pipeline, h1, h2]

/-- Witness for C5 at concrete oracles: three writes, one shared timestamp. -/
theorem generate_three_transcript_files_witness :
    ((fun (_ : String) (_ : BioinformaticsContext) =>
        (.ok (⟨["s"], ["t"], "f"⟩, ([] : List Msg)) :
          Except String (WorkflowDesign × List Msg))) "u" ⟨"p", [], []⟩ =
        .ok (⟨["s"], ["t"], "f"⟩, ([] : List Msg))) ∧
    ((fun (_ : String) (_ : BioinformaticsContext) =>
        (.ok (⟨"sf", "cy", "ey", "doc"⟩, ([] : List Msg)) :
          Except String (SnakemakeCode × List Msg)))
        (mkCodePrompt ⟨["s"], ["t"], "f"⟩ "u") ⟨"p", [], []⟩ =
        .ok (⟨"sf", "cy", "ey", "doc"⟩, ([] : List Msg))) ∧
    generate_bioinformatics_pipeline
        (fun _ _ => .ok (⟨["s"], ["t"], "f"⟩, []))
        (fun _ _ => .ok (⟨"sf", "cy", "ey", "doc"⟩, []))
        "u" ⟨"p", [], []⟩ "out" (fun n => String.mk (natChars n)) =
      ([⟨"out" ++ "/workflow_design_history_" ++ String.mk (natChars 0) ++ ".json",
         .transcript (save_message_history [] "json" (String.mk (natChars 1)))⟩,
        ⟨"out" ++ "/snakemake_generation_history_" ++ String.mk (natChars 0) ++ ".json",
         .transcript (save_message_history [] "json" (String.mk (natChars 2)))⟩,
        ⟨"out" ++ "/full_pipeline_history_" ++ String.mk (natChars 0) ++ ".json",
         .combined (save_full_message_history [] [] ⟨["s"], ["t"], "f"⟩ "u" ⟨"p", [], []⟩)⟩],
       .ok (⟨["s"], ["t"], "f"⟩, ⟨"sf", "cy", "ey", "doc"⟩)) :=
  ⟨rfl, rfl, generate_three_transcript_files
    (fun _ _ => .ok (⟨["s"], ["t"], "f"⟩, []))
    (fun _ _ => .ok (⟨"sf", "cy", "ey", "doc"⟩, []))
    "u" ⟨"p", [], []⟩ "out" (fun n => String.mk (natChars n))
    ⟨["s"], ["t"], "f"⟩ [] ⟨"sf", "cy", "ey", "doc"⟩ [] rfl rfl⟩

/-- Claim C6: the stage-2 prompt embeds stage 1's `analysis_steps`,
`tools_required` and `data_flow` and the original user prompt verbatim; a
stage-1 failure yields zero stage-2 invocations (the run result is
independent of the stage-2 oracle and equals the propagated error); and on
stage-1 success the run depends on the stage-2 oracle only through its value
at exactly the built prompt. -/
theorem generate_stage2_prompt_and_dependency :
    (∀ (design : WorkflowDesign) (u : String), ∃ p₁ p₂ p₃ p₄,
      mkCodePrompt design u =
        p₁ ++ pyListRepr design.analysis_steps ++ p₂ ++ pyListRepr design.tools_required ++
        p₃ ++ design.data_flow ++ p₄ ++ u) ∧
    (∀ workflow_agent code_agent (u : String) ctx (o : String) clock e,
      workflow_agent u ctx = .error e →
      generate_bioinformatics_pipeline workflow_agent code_agent u ctx o clock =
        ([], .error e)) ∧
    (∀ workflow_agent code_agent code_agent' (u : String) ctx (o : String) clock design wh,
      workflow_agent u ctx = .ok (design, wh) →
      code_agent (mkCodePrompt design u) ctx = code_agent' (mkCodePrompt design u) ctx →
      generate_bioinformatics_pipeline workflow_agent code_agent u ctx o clock =
        generate_bioinformatics_pipeline workflow_agent code_agent' u ctx o clock) := by
  refine ⟨?_, ?_, ?_⟩
  · intro design u
    exact ⟨"Generate Snakemake pipeline implementing this design:\n    \n    Steps: ",
           "\n    Tools: ", "\n    Data flow: ", "\n    \n    Original request: ", rfl⟩
  · intro wa ca u ctx o clock e h1
    simp only [generate_bioinformatics_pipeline, h1]
  · intro wa ca ca' u ctx o clock design wh h1 h2
    simp only [generate_bioinformatics_pipeline, h1, h2]

/-- Witness for C6 at concrete inputs, discharging each part's hypotheses. -/
theorem generate_stage2_prompt_and_dependency_witness :
    (∃ p₁ p₂ p₃ p₄,
      mkCodePrompt ⟨["s"], ["t"], "f"⟩ "orig" =
        p₁ ++ pyListRepr ["s"] ++ p₂ ++ pyListRepr ["t"] ++ p₃ ++ "f" ++ p₄ ++ "orig") ∧
    ((fun (_ : String) (_ : BioinformaticsContext) =>
        (.error "fail1" : Except String (WorkflowDesign × List Msg))) "orig" ⟨"p", [], []⟩ =
        .error "fail1" ∧
      generate_bioinformatics_pipeline (fun _ _ => .error "fail1")
        (fun _ _ => .ok (⟨"sf", "cy", "ey", "doc"⟩, [])) "orig" ⟨"p", [], []⟩ "out"
        (fun _ => "TS") = ([], .error "fail1")) ∧
    generate_bioinformatics_pipeline
        (fun _ _ => .ok (⟨["s"], ["t"], "f"⟩, []))
        (fun p _ => if p = mkCodePrompt ⟨["s"], ["t"], "f"⟩ "orig"
          then .ok (⟨"sf", "cy", "ey", "doc"⟩, []) else .error "other")
        "orig" ⟨"p", [], []⟩ "out" (fun _ => "TS") =
      generate_bioinformatics_pipeline
        (fun _ _ => .ok (⟨["s"], ["t"], "f"⟩, []))
        (fun _ _ => .ok (⟨"sf", "cy", "ey", "doc"⟩, []))
        "orig" ⟨"p", [], []⟩ "out" (fun _ => "TS") :=
  ⟨generate_stage2_prompt_and_dependency.1 ⟨["s"], ["t"], "f"⟩ "orig",
   ⟨rfl, generate_stage2_prompt_and_dependency.2.1 (fun _ _ => .error "fail1")
      (fun _ _ => .ok (⟨"sf", "cy", "ey", "doc"⟩, [])) "orig" ⟨"p", [], []⟩ "out"
      (fun _ => "TS") "fail1" rfl⟩,
   generate_stage2_prompt_and_dependency.2.2
      (fun _ _ => .ok (⟨["s"], ["t"], "f"⟩, []))
      (fun p _ => if p = mkCodePrompt ⟨["s"], ["t"], "f"⟩ "orig"
        then .ok (⟨"sf", "cy", "ey", "doc"⟩, []) else .error "other")
      (fun _ _ => .ok (⟨"sf", "cy", "ey", "doc"⟩, []))
      "orig" ⟨"p", [], []⟩ "out" (fun _ => "TS") ⟨["s"], ["t"], "f"⟩ []
      rfl (by simp)⟩

/-! ## Claims about the run identifier -/

theorem mem_sepBy (c : Char) (sep : List Char) :
    ∀ (pieces : List (List Char)), c ∈ sepBy sep pieces → c ∈ sep ∨ ∃ p ∈ pieces, c ∈ p
  | [], h => by simp [sepBy] at h
  | [p], h => by
      simp only [sepBy] at h
      exact .inr ⟨p, by simp, h⟩
  | p :: q :: ps, h => by
      simp only [sepBy, List.mem_append] at h
      rcases h with (hp | hs) | hrest
      · exact .inr ⟨p, by simp, hp⟩
      · exact .inl hs
      · rcases mem_sepBy c sep (q :: ps) hrest with h | ⟨r, hr, hcr⟩
        · exact .inl h
        · exact .inr ⟨r, by simp [hr], hcr⟩

theorem mem_pySplitChar (sep : Char) :
    ∀ (l : List Char) (p : List Char), p ∈ pySplitChar sep l → ∀ c ∈ p, c ∈ l
  | [], p, hp, c, hc => by
      simp only [pySplitChar, List.mem_singleton] at hp
      subst hp
      simp at hc
  | x :: xs, p, hp, c, hc => by
      simp only [pySplitChar] at hp
      split at hp
      · rcases List.mem_cons.mp hp with h | h
        · subst h; simp at hc
        · exact List.mem_cons_of_mem _ (mem_pySplitChar sep xs p h c hc)
      · split at hp
        · rcases List.mem_cons.mp hp with h | h
          · subst h
            rcases List.mem_singleton.mp hc with rfl
            exact List.mem_cons_self _ _
          · simp at h
        · rename_i p0 ps0 heq
          rcases List.mem_cons.mp hp with h | h
          · subst h
            rcases List.mem_cons.mp hc with rfl | h
            · exact List.mem_cons_self _ _
            · have hp0 : p0 ∈ pySplitChar sep xs := by rw [heq]; exact List.mem_cons_self _ _
              exact List.mem_cons_of_mem _ (mem_pySplitChar sep xs p0 hp0 c h)
          · have hps : p ∈ pySplitChar sep xs := by rw [heq]; exact List.mem_cons_of_mem _ h
            exact List.mem_cons_of_mem _ (mem_pySplitChar sep xs p hps c hc)

theorem mem_pyReplaceChar {c a b : Char} {l : List Char} (h : c ∈ pyReplaceChar a b l) :
    ∃ x ∈ l, c = if x = a then b else x := by
  simp only [pyReplaceChar, List.mem_map] at h
  rcases h with ⟨x, hx, hc⟩
  exact ⟨x, hx, hc.symm⟩

/-- Counterexample to claim C8: the claim includes a lowercasing step in the
normalization, but `create_new_user_and_rundir` performs none — on the phrase
`"Ab-cd-12"` the code yields `"Ab_cd"` while the spec's normalization (the
comparison definition `create_run_id_spec_version`) yields `"ab_cd"`. -/
theorem create_new_user_and_rundir_counterexample :
    create_new_user_and_rundir "Ab-cd-12" = "Ab_cd" ∧
    create_run_id_spec_version "Ab-cd-12" = "ab_cd" ∧
    create_new_user_and_rundir "Ab-cd-12" ≠ create_run_id_spec_version "Ab-cd-12" :=
  ⟨by decide, by decide, by decide⟩

/-- Claim C8 (amended): `create_new_user_and_rundir` normalizes the generated
phrase by replacing both separators (hyphen, space) with the canonical `"_"`,
stripping the trailing segment, and truncating to at most 32 characters — with
no lowercasing step — so for every phrase the returned identifier has length
at most 32 and contains neither a hyphen nor a space. -/
theorem create_new_user_and_rundir_normalizes (phrase : String) :
    (create_new_user_and_rundir phrase).length ≤ 32 ∧
    ∀ c ∈ (create_new_user_and_rundir phrase).data, c ≠ '-' ∧ c ≠ ' ' := by
  constructor
  · have h : (create_new_user_and_rundir phrase).length =
        ((sepBy ['_'] ((pySplitChar '_'
          (pyReplaceChar ' ' '_' (pyReplaceChar '-' '_' phrase.data))).dropLast)).take 32).length :=
      rfl
    rw [h, List.length_take]
    exact Nat.min_le_left _ _
  · intro c hc
    have hc' := List.take_subset _ _ hc
    rcases mem_sepBy c ['_'] _ hc' with h | ⟨p, hp, hcp⟩
    · rcases List.mem_singleton.mp h with rfl
      exact ⟨by decide, by decide⟩
    · have hp' := List.dropLast_subset _ hp
      have hcl := mem_pySplitChar '_' _ p hp' c hcp
      rcases mem_pyReplaceChar hcl with ⟨x, hx, hcx⟩
      rcases mem_pyReplaceChar hx with ⟨y, _, hxy⟩
      constructor
      · rw [hcx]
        split
        · decide
        · rw [hxy]
          split
          · decide
          · rename_i hy; exact hy
      · rw [hcx]
        split
        · decide
        · rename_i hx2; exact hx2

/-! ## Claims about the combined serializer -/

theorem natDigit_ascii (n : Nat) : (natDigit n).toNat ≤ 127 := by
  unfold natDigit
  split <;> decide

theorem hexDigit_ascii (n : Nat) : (hexDigit n).toNat ≤ 127 := by
  unfold hexDigit
  split <;> decide

theorem natCharsAux_ascii :
    ∀ (fuel n : Nat), ∀ c ∈ natCharsAux fuel n, c.toNat ≤ 127
  | 0, n, c, hc => by simp [natCharsAux] at hc
  | fuel + 1, n, c, hc => by
      simp only [natCharsAux] at hc
      split at hc
      · rcases List.mem_singleton.mp hc with rfl
        exact natDigit_ascii n
      · rcases List.mem_append.mp hc with h | h
        · exact natCharsAux_ascii fuel (n / 10) c h
        · rcases List.mem_singleton.mp h with rfl
          exact natDigit_ascii n

theorem hex4_ascii (n : Nat) : ∀ c ∈ hex4 n, c.toNat ≤ 127 := by
  intro c hc
  simp only [hex4, List.mem_cons, List.mem_singleton] at hc
  rcases hc with rfl | rfl | rfl | rfl | h
  · exact hexDigit_ascii _
  · exact hexDigit_ascii _
  · exact hexDigit_ascii _
  · exact hexDigit_ascii _
  · simp at h

theorem escChar_ascii (c : Char) : ∀ d ∈ escChar true c, d.toNat ≤ 127 := by
  intro d hd
  unfold escChar at hd
  split at hd
  · rcases List.mem_cons.mp hd with rfl | h
    · decide
    · rcases List.mem_singleton.mp h with rfl; decide
  · split at hd
    · rcases List.mem_cons.mp hd with rfl | h
      · decide
      · rcases List.mem_singleton.mp h with rfl; decide
    · split at hd
      · rcases List.mem_cons.mp hd with rfl | h
        · decide
        · rcases List.mem_cons.mp h with rfl | h2
          · decide
          · exact hex4_ascii _ d h2
      · rename_i hcond
        rcases List.mem_singleton.mp hd with rfl
        have : ¬ 127 < d.toNat := fun hlt => hcond ⟨rfl, hlt⟩
        omega

theorem renderStringChars_ascii (s : String) :
    ∀ c ∈ renderStringChars true s, c.toNat ≤ 127 := by
  intro c hc
  rcases List.mem_cons.mp hc with rfl | hc2
  · decide
  · rcases List.mem_append.mp hc2 with h | h
    · rcases List.mem_flatten.mp h with ⟨l, hl, hcl⟩
      rcases List.mem_map.mp hl with ⟨x, _, rfl⟩
      exact escChar_ascii x c hcl
    · rcases List.mem_singleton.mp h with rfl
      decide

theorem renderJCharsF_ascii :
    ∀ (fuel : Nat) (v : JValue), ∀ c ∈ renderJCharsF true fuel v, c.toNat ≤ 127
  | 0, _, c, hc => by simp [renderJCharsF] at hc
  | fuel + 1, v, c, hc => by
      cases v with
      | str s => exact renderStringChars_ascii s c hc
      | nat n => exact natCharsAux_ascii _ _ c hc
      | null =>
        have hnull : ∀ d ∈ ("null".data : List Char), d.toNat ≤ 127 := by decide
        exact hnull c hc
      | arr l =>
        have he : renderJCharsF true (fuel + 1) (.arr l) =
            '[' :: sepBy ", ".data (l.map (renderJCharsF true fuel)) ++ [']'] := rfl
        rw [he] at hc
        rcases List.mem_cons.mp hc with rfl | hc2
        · decide
        · rcases List.mem_append.mp hc2 with h | h
          · rcases mem_sepBy c _ _ h with h2 | ⟨p, hp, hcp⟩
            · rcases List.mem_cons.mp h2 with rfl | h3
              · decide
              · rcases List.mem_singleton.mp h3 with rfl; decide
            · rcases List.mem_map.mp hp with ⟨x, _, rfl⟩
              exact renderJCharsF_ascii fuel x c hcp
          · rcases List.mem_singleton.mp h with rfl; decide
      | obj l =>
        have he : renderJCharsF true (fuel + 1) (.obj l) =
            lbrace :: sepBy ", ".data
              (l.map (fun p => renderStringChars true p.1 ++ ": ".data ++
                renderJCharsF true fuel p.2)) ++ [rbrace] := rfl
        rw [he] at hc
        rcases List.mem_cons.mp hc with rfl | hc2
        · decide
        · rcases List.mem_append.mp hc2 with h | h
          · rcases mem_sepBy c _ _ h with h2 | ⟨p, hp, hcp⟩
            · rcases List.mem_cons.mp h2 with rfl | h3
              · decide
              · rcases List.mem_singleton.mp h3 with rfl; decide
            · rcases List.mem_map.mp hp with ⟨x, _, rfl⟩
              rcases List.mem_append.mp hcp with h4 | h4
              · rcases List.mem_append.mp h4 with h5 | h5
                · exact renderStringChars_ascii _ c h5
                · rcases List.mem_cons.mp h5 with rfl | h6
                  · decide
                  · rcases List.mem_singleton.mp h6 with rfl; decide
              · exact renderJCharsF_ascii fuel x.2 c h4
          · rcases List.mem_singleton.mp h with rfl; decide

/-- Claim C10: `save_full_message_history` applies no degraded-document
fallback — for every input it writes the single dict keying the two raw
(unextracted) histories as `workflow_messages` and `snakemake_messages`, in
one `json.dump` call with `default=str` stringification of non-dict turns
(the absence of a try/except around that call is structural in the
definition: there is no fallback branch, so a serialization failure would
propagate) — and since it does not pass `ensure_ascii=False`, every character
of the combined document's JSON text is ASCII, whereas `save_message_history`
(which passes `ensure_ascii=False`) preserves non-ASCII characters, witnessed
by a turn containing `é`. -/
theorem save_full_message_history_no_fallback :
    (∀ wh sh design u ctx,
      jsonOfFullDoc (save_full_message_history wh sh design u ctx) =
        .obj [("workflow_messages", .arr (wh.map jsonOfMsg)),
              ("snakemake_messages", .arr (sh.map jsonOfMsg))]) ∧
    (∀ fd : FullDoc, ∀ c ∈ (renderFullDoc fd).data, c.toNat ≤ 127) ∧
    (∃ d, save_message_history [⟨none, none, none, "x", "é"⟩] "json" "T" = some d ∧
      ∃ c ∈ (renderDoc d).data, 127 < c.toNat) := by
  refine ⟨fun wh sh design u ctx => rfl, ?_, ?_⟩
  · intro fd c hc
    exact renderJCharsF_ascii _ _ c hc
  · exact ⟨_, rfl, by decide⟩

end AgenticPipelines
